import Mathlib

/-!
# Verification of the blocktrain device/app permission registry

Shallow embedding of the `UserDeviceManager` and `UserDeviceManagerFactory`
Solidity contracts (`src/contracts/contracts/`).  Addresses and uint256
values are modelled as `Nat` (no arithmetic is ever performed on them, so
no wrap-around is relevant; permission levels are `uint8` values compared
against 3 only).  Solidity mappings are modelled as association lists with
the Solidity zero-default on lookup; `keccak256(abi.encodePacked(subdomain,
deviceAddress, deviceNullifier))` is modelled by the (injectively encoded)
preimage triple itself, since `abi.encodePacked` with fixed-width suffixes
is injective and the hash is treated as collision-free.  External
collaborators (the L2 ENS registry and the `IUniqueId` verifier) are out of
scope per the spec; the verifier's verdict enters `addDevice` as a boolean
input (the repo's `MockUniqueId` always succeeds).  Each contract entry
point becomes a function `State → args → Except Err State`; EVM transaction
semantics (revert rolls back every write) is captured by the `Tx` wrappers
that return the pre-state on error.
-/

namespace Blocktrain

/-- `bytes32 deviceHash = keccak256(abi.encodePacked(subdomain, deviceAddress,
deviceNullifier))` modelled by its preimage triple (the packed encoding is
injective, the hash collision-free). -/
structure DeviceHash where
  subdomain : String
  deviceAddress : Nat
  deviceNullifier : Nat
deriving DecidableEq, Repr

/-- `struct Device` of `IUserDeviceManager`. -/
structure Device where
  model : String
  subdomain : String
  deviceAddress : Nat
  deviceNullifier : Nat
  existsFlag : Bool
deriving DecidableEq, Repr

/-- `struct AppPermission` of `IUserDeviceManager`. -/
structure AppPermission where
  permission : Nat
  existsFlag : Bool
deriving DecidableEq, Repr

/-- Solidity default value of `Device` (all fields zeroed). -/
def defaultDevice : Device := ⟨"", "", 0, 0, false⟩

/-- Solidity default value of `AppPermission`. -/
def defaultAppPermission : AppPermission := ⟨0, false⟩

/-- The errors declared by `UserDeviceManager`, plus the failure of the
external `uniqueId.verifyProof` call (which reverts the transaction). -/
inductive UDMErr where
  | DuplicateNullifier (nullifierHash : Nat)
  | DeviceNotFound (deviceHash : DeviceHash)
  | AppNotFound (deviceHash : DeviceHash) (appId : String)
  | InvalidPermission (permission : Nat)
  | Unauthorized
  | DeviceAlreadyExists (deviceHash : DeviceHash)
  | ProofVerificationFailed
deriving DecidableEq, Repr

/-- Storage of one `UserDeviceManager` instance (its immutable constructor
parameters plus the four mutable mappings/arrays). -/
structure UDMState where
  ensDomain : String
  userAddress : Nat
  userNullifierHash : Nat
  devices : List (DeviceHash × Device)
  deviceApps : List ((DeviceHash × String) × AppPermission)
  deviceAppIds : List (DeviceHash × List String)
  deviceHashes : List DeviceHash
  nullifierHashes : List Nat
deriving DecidableEq, Repr

/-- Association-list read modelling a Solidity mapping access: the value
of the first entry for the key, or the mapping's default. -/
def lookupD {κ ν : Type} [DecidableEq κ] (l : List (κ × ν)) (k : κ) (dflt : ν) : ν :=
  ((l.find? fun p => decide (p.1 = k)).map Prod.snd).getD dflt

/-- Mapping read `devices[deviceHash]` with the Solidity zero default. -/
def findDevice (s : UDMState) (k : DeviceHash) : Device :=
  lookupD s.devices k defaultDevice

/-- Mapping read `deviceApps[deviceHash][appId]` with the zero default. -/
def findApp (s : UDMState) (k : DeviceHash) (appId : String) : AppPermission :=
  lookupD s.deviceApps (k, appId) defaultAppPermission

/-- Mapping read `deviceAppIds[deviceHash]` (absent key reads as the empty
array). -/
def findAppIds (s : UDMState) (k : DeviceHash) : List String :=
  lookupD s.deviceAppIds k []

/-- The state produced by the `UserDeviceManager` constructor: the three
identity parameters with all mappings empty.  (The constructor also
registers the main ENS domain with the external registry, a side effect
outside this state.) -/
def udmInit (ensDomain : String) (userAddress userNullifierHash : Nat) : UDMState :=
  ⟨ensDomain, userAddress, userNullifierHash, [], [], [], [], []⟩

/-- `addDevice` (`UserDeviceManager.sol` lines 113-154) inlined with
`_verifyProof` (lines 302-325).  `proofOk` is the verdict of the external
`uniqueId.verifyProof` call (the repo's mock always succeeds); `root` and
the proof words are only forwarded to that verifier.  Note the source
order: the replay check and proof verification run before the
duplicate-device check, and a revert on the latter rolls back the
nullifier consumption. -/
def udmAddDevice (s : UDMState) (model : String)
    (deviceAddress deviceNullifier root nullifierHash : Nat) (proofOk : Bool) :
    Except UDMErr UDMState :=
  -- _verifyProof(userAddress, root, nullifierHash, proof)
  if s.nullifierHashes.contains nullifierHash then
    .error (.DuplicateNullifier nullifierHash)
  else if !proofOk then
    .error .ProofVerificationFailed
  else
    -- nullifierHashes[nullifierHash] = true
    let s1 : UDMState := { s with nullifierHashes := nullifierHash :: s.nullifierHashes }
    let subdomain := model ++ "." ++ s.ensDomain
    let deviceHash : DeviceHash := ⟨subdomain, deviceAddress, deviceNullifier⟩
    if (findDevice s1 deviceHash).existsFlag then
      .error (.DeviceAlreadyExists deviceHash)
    else
      .ok { s1 with
        devices := (deviceHash,
          ⟨model, subdomain, deviceAddress, deviceNullifier, true⟩) :: s1.devices,
        deviceHashes := s1.deviceHashes ++ [deviceHash],
        deviceAppIds := (deviceHash, []) :: s1.deviceAppIds }

/-- `addAppToDevice` (lines 179-211).  The source writes the entry with
`exists = true` and only afterwards tests `!deviceApps[deviceHash][appId].existsFlag`
before pushing to the enumeration array; the embedding reproduces exactly
that read-after-write. -/
def udmAddAppToDevice (s : UDMState) (caller : Nat) (deviceHash : DeviceHash)
    (appId : String) (permission : Nat) : Except UDMErr UDMState :=
  if caller ≠ s.userAddress then
    .error .Unauthorized
  else if permission > 3 then
    .error (.InvalidPermission permission)
  else if !(findDevice s deviceHash).existsFlag then
    .error (.DeviceNotFound deviceHash)
  else
    let s1 : UDMState := { s with
      deviceApps := ((deviceHash, appId), ⟨permission, true⟩) :: s.deviceApps }
    if !(findApp s1 deviceHash appId).existsFlag then
      .ok { s1 with
        deviceAppIds :=
          (deviceHash, findAppIds s1 deviceHash ++ [appId]) :: s1.deviceAppIds }
    else
      .ok s1

/-- `updateAppPermission` (lines 217-246). -/
def udmUpdateAppPermission (s : UDMState) (caller : Nat) (deviceHash : DeviceHash)
    (appId : String) (newPermission : Nat) : Except UDMErr UDMState :=
  if caller ≠ s.userAddress then
    .error .Unauthorized
  else if newPermission > 3 then
    .error (.InvalidPermission newPermission)
  else if !(findDevice s deviceHash).existsFlag then
    .error (.DeviceNotFound deviceHash)
  else if !(findApp s deviceHash appId).existsFlag then
    .error (.AppNotFound deviceHash appId)
  else
    let old := findApp s deviceHash appId
    .ok { s with
      deviceApps := ((deviceHash, appId), ⟨newPermission, old.existsFlag⟩) :: s.deviceApps }

/-- `getDevice` (lines 251-256). -/
def udmGetDevice (s : UDMState) (deviceHash : DeviceHash) : Except UDMErr Device :=
  if !(findDevice s deviceHash).existsFlag then
    .error (.DeviceNotFound deviceHash)
  else
    .ok (findDevice s deviceHash)

/-- `getAppPermission` (lines 262-267): checks only the device, then returns
the mapping entry (defaulted when the app was never created). -/
def udmGetAppPermission (s : UDMState) (deviceHash : DeviceHash) (appId : String) :
    Except UDMErr AppPermission :=
  if !(findDevice s deviceHash).existsFlag then
    .error (.DeviceNotFound deviceHash)
  else
    .ok (findApp s deviceHash appId)

/-- `getDeviceAppIds` (lines 272-277). -/
def udmGetDeviceAppIds (s : UDMState) (deviceHash : DeviceHash) :
    Except UDMErr (List String) :=
  if !(findDevice s deviceHash).existsFlag then
    .error (.DeviceNotFound deviceHash)
  else
    .ok (findAppIds s deviceHash)

/-- `getDeviceAppCount` (lines 282-287). -/
def udmGetDeviceAppCount (s : UDMState) (deviceHash : DeviceHash) :
    Except UDMErr Nat :=
  if !(findDevice s deviceHash).existsFlag then
    .error (.DeviceNotFound deviceHash)
  else
    .ok (findAppIds s deviceHash).length

/-- `getAllDeviceHashes` (lines 291-293). -/
def udmGetAllDeviceHashes (s : UDMState) : List DeviceHash :=
  s.deviceHashes

/-- `getDeviceCount` (lines 297-299). -/
def udmGetDeviceCount (s : UDMState) : Nat :=
  s.deviceHashes.length

/-- One external call into a `UserDeviceManager` that may mutate state.
`addDevice` carries no caller because the source never reads `msg.sender`
there (the proof is bound to `userAddress` instead). -/
inductive UDMCall where
  | addDevice (model : String)
      (deviceAddress deviceNullifier root nullifierHash : Nat) (proofOk : Bool)
  | addAppToDevice (caller : Nat) (deviceHash : DeviceHash)
      (appId : String) (permission : Nat)
  | updateAppPermission (caller : Nat) (deviceHash : DeviceHash)
      (appId : String) (newPermission : Nat)
deriving DecidableEq, Repr

/-- Dispatch a call to its entry point. -/
def udmRun (s : UDMState) : UDMCall → Except UDMErr UDMState
  | .addDevice m a dn r nh p => udmAddDevice s m a dn r nh p
  | .addAppToDevice c h a p => udmAddAppToDevice s c h a p
  | .updateAppPermission c h a p => udmUpdateAppPermission s c h a p

/-- EVM transaction semantics: a reverted call leaves storage as it was. -/
def udmTx (s : UDMState) (c : UDMCall) : UDMState :=
  match udmRun s c with
  | .ok s' => s'
  | .error _ => s

/-- The states a single `UserDeviceManager` instance can reach: its
constructor state followed by any sequence of successful transactions
(reverted transactions leave the state unchanged). -/
inductive UDMReachable : UDMState → Prop where
  | init (ensDomain : String) (userAddress userNullifierHash : Nat) :
      UDMReachable (udmInit ensDomain userAddress userNullifierHash)
  | step {s s' : UDMState} {c : UDMCall} :
      UDMReachable s → udmRun s c = .ok s' → UDMReachable s'

/-- One successful transaction links two registry states. -/
def UDMStepRel (s s' : UDMState) : Prop :=
  ∃ c : UDMCall, udmRun s c = .ok s'

/-- `t` is reachable from `s` by a sequence of successful transactions. -/
def UDMReachFrom (s t : UDMState) : Prop :=
  Relation.ReflTransGen UDMStepRel s t

/-- The errors declared by `UserDeviceManagerFactory`. -/
inductive FactoryErr where
  | Unauthorized
  | UserAlreadyHasContract (userAddress : Nat)
  | DomainAlreadyRegistered (ensDomain : String)
  | ContractNotFound (userAddress : Nat)
deriving DecidableEq, Repr

/-- Storage of the `UserDeviceManagerFactory` contract.  Contract addresses
are `Nat`, with `0` playing the role of `address(0)` exactly as in the
source's sentinel checks. -/
structure FactoryState where
  owner : Nat
  userContracts : List (Nat × Nat)
  domainToUser : List (String × Nat)
  allContracts : List Nat
deriving DecidableEq, Repr

/-- Association-list read with the Solidity zero default. -/
def lookupZero {κ : Type} [DecidableEq κ] (l : List (κ × Nat)) (k : κ) : Nat :=
  ((l.find? fun p => decide (p.1 = k)).map Prod.snd).getD 0

/-- Mapping read `userContracts[userAddress]` (zero default). -/
def findUserContract (s : FactoryState) (userAddress : Nat) : Nat :=
  lookupZero s.userContracts userAddress

/-- Mapping read `domainToUser[ensDomain]` (zero default). -/
def findDomainUser (s : FactoryState) (ensDomain : String) : Nat :=
  lookupZero s.domainToUser ensDomain

/-- The address of the contract instance created by `new UserDeviceManager`:
EVM `CREATE` always yields a fresh nonzero address, modelled
deterministically from the deployment count. -/
def freshContractAddress (s : FactoryState) : Nat :=
  s.allContracts.length + 1

/-- The factory constructor state. -/
def factoryInit (owner : Nat) : FactoryState :=
  ⟨owner, [], [], []⟩

/-- `deployUserDeviceManager` (`UserDeviceManagerFactory.sol` lines 54-98).
Returns the new state and the deployed contract address. -/
def deployUserDeviceManager (s : FactoryState) (caller userAddress : Nat)
    (ensDomain : String) (userNullifierHash : Nat) :
    Except FactoryErr (FactoryState × Nat) :=
  if caller ≠ s.owner then
    .error .Unauthorized
  else if findUserContract s userAddress ≠ 0 then
    .error (.UserAlreadyHasContract userAddress)
  else if findDomainUser s ensDomain ≠ 0 then
    .error (.DomainAlreadyRegistered ensDomain)
  else
    let contractAddress := freshContractAddress s
    .ok ({ s with
      userContracts := (userAddress, contractAddress) :: s.userContracts,
      domainToUser := (ensDomain, userAddress) :: s.domainToUser,
      allContracts := s.allContracts ++ [contractAddress] }, contractAddress)

/-- `getUserContract` (lines 103-109). -/
def getUserContract (s : FactoryState) (userAddress : Nat) : Except FactoryErr Nat :=
  let contractAddress := findUserContract s userAddress
  if contractAddress = 0 then
    .error (.ContractNotFound userAddress)
  else
    .ok contractAddress

/-- `getUserByDomain` (lines 114-120); the source reports the zero
`userAddress` read from the mapping inside the error. -/
def getUserByDomain (s : FactoryState) (ensDomain : String) : Except FactoryErr Nat :=
  let userAddress := findDomainUser s ensDomain
  if userAddress = 0 then
    .error (.ContractNotFound userAddress)
  else
    .ok userAddress

/-- `getContractByDomain` (lines 125-131). -/
def getContractByDomain (s : FactoryState) (ensDomain : String) :
    Except FactoryErr Nat :=
  let userAddress := findDomainUser s ensDomain
  if userAddress = 0 then
    .error (.ContractNotFound userAddress)
  else
    .ok (findUserContract s userAddress)

/-- `hasUserContract` (lines 136-138). -/
def hasUserContract (s : FactoryState) (userAddress : Nat) : Bool :=
  findUserContract s userAddress ≠ 0

/-- `isDomainRegistered` (lines 143-145). -/
def isDomainRegistered (s : FactoryState) (ensDomain : String) : Bool :=
  findDomainUser s ensDomain ≠ 0

/-- EVM transaction semantics for the factory's one mutating entry point:
a reverted deployment leaves storage unchanged. -/
def factoryTx (s : FactoryState) (caller userAddress : Nat) (ensDomain : String)
    (userNullifierHash : Nat) : FactoryState :=
  match deployUserDeviceManager s caller userAddress ensDomain userNullifierHash with
  | .ok (s', _) => s'
  | .error _ => s

/-- One successful deployment links two factory states. -/
def FactoryStepRel (s s' : FactoryState) : Prop :=
  ∃ caller userAddress ensDomain userNullifierHash contractAddress,
    deployUserDeviceManager s caller userAddress ensDomain userNullifierHash =
      .ok (s', contractAddress)

/-- `t` is reachable from factory state `s` by successful deployments. -/
def FactoryReachFrom (s t : FactoryState) : Prop :=
  Relation.ReflTransGen FactoryStepRel s t

/-- The factory states reachable from its constructor state. -/
inductive FactoryReachable : FactoryState → Prop where
  | init (owner : Nat) : FactoryReachable (factoryInit owner)
  | step {s s' : FactoryState} :
      FactoryReachable s → FactoryStepRel s s' → FactoryReachable s'

/-- Decidable equality of call results, for evaluating the model on
concrete inputs. -/
instance {ε α : Type} [DecidableEq ε] [DecidableEq α] :
    DecidableEq (Except ε α) := fun a b =>
  match a, b with
  | .ok x, .ok y =>
      if h : x = y then isTrue (congrArg Except.ok h)
      else isFalse fun hc => h (Except.ok.inj hc)
  | .error x, .error y =>
      if h : x = y then isTrue (congrArg Except.error h)
      else isFalse fun hc => h (Except.error.inj hc)
  | .ok _, .error _ => isFalse fun hc => Except.noConfusion hc
  | .error _, .ok _ => isFalse fun hc => Except.noConfusion hc

/-! ## The spec's end-to-end scenario (§8)

Registry for user `0xA1` (161), domain `"alice.eth"`, user nullifier 7;
device model `"phone"`, device address `0xD1` (209), device nullifier 42,
proof nullifiers 100 and 101. -/

/-- Freshly created registry of the scenario. -/
def scenario0 : UDMState := udmInit "alice.eth" 161 7

/-- The device hash of the scenario's device. -/
def scenarioKey : DeviceHash := ⟨"phone.alice.eth", 209, 42⟩

/-- Scenario state after `addDevice("phone", 0xD1, 42)` with proof
nullifier 100. -/
def scenario1 : UDMState := udmTx scenario0 (.addDevice "phone" 209 42 1 100 true)

/-- Scenario state after `addAppToDevice(deviceHash, "com.example.app", 2)`. -/
def scenario2 : UDMState :=
  udmTx scenario1 (.addAppToDevice 161 scenarioKey "com.example.app" 2)

/-- Scenario state after `updateAppPermission(deviceHash, "com.example.app", 3)`. -/
def scenario3 : UDMState :=
  udmTx scenario2 (.updateAppPermission 161 scenarioKey "com.example.app" 3)

/-! ## Helper lemmas -/

/-- Reading an association list through one written entry. -/
lemma lookupD_cons {κ ν : Type} [DecidableEq κ] (k' : κ) (v : ν)
    (l : List (κ × ν)) (k : κ) (dflt : ν) :
    lookupD ((k', v) :: l) k dflt = if k' = k then v else lookupD l k dflt := by
  by_cases h : k' = k
  · simp [lookupD, h]
  · simp [lookupD, h]

/-- Reading back the `deviceApps` entry just written returns it. -/
lemma findApp_write_self (s : UDMState) (k : DeviceHash) (a : String)
    (v : AppPermission) :
    findApp { s with deviceApps := ((k, a), v) :: s.deviceApps } k a = v := by
  simp [findApp, lookupD]

/-- The guarded branches of `addAppToDevice` collapse: since the entry is
written with `exists = true` before the membership test, the test is always
false and the enumeration push is dead code; a successful call only writes
the permission entry. -/
lemma udmAddAppToDevice_ok_eq {s s' : UDMState} {caller : Nat} {k : DeviceHash}
    {a : String} {p : Nat} (h : udmAddAppToDevice s caller k a p = .ok s') :
    s' = { s with deviceApps := ((k, a), ⟨p, true⟩) :: s.deviceApps } := by
  simp only [udmAddAppToDevice] at h
  split at h
  · exact absurd h (by simp)
  · split at h
    · exact absurd h (by simp)
    · split at h
      · exact absurd h (by simp)
      · rw [findApp_write_self] at h
        simp at h
        exact h.symm

/-- A successful `updateAppPermission` only writes the permission entry. -/
lemma udmUpdateAppPermission_ok_eq {s s' : UDMState} {caller : Nat}
    {k : DeviceHash} {a : String} {p : Nat}
    (h : udmUpdateAppPermission s caller k a p = .ok s') :
    s' = { s with
      deviceApps := ((k, a), ⟨p, (findApp s k a).existsFlag⟩) :: s.deviceApps } := by
  simp only [udmUpdateAppPermission] at h
  split at h
  · exact absurd h (by simp)
  · split at h
    · exact absurd h (by simp)
    · split at h
      · exact absurd h (by simp)
      · split at h
        · exact absurd h (by simp)
        · simp at h
          exact h.symm

/-- Shape of a successful `addDevice`: the guards that passed and the
resulting state. -/
lemma udmAddDevice_ok_eq {s s' : UDMState} {m : String} {a dn r nh : Nat}
    {p : Bool} (h : udmAddDevice s m a dn r nh p = .ok s') :
    s' = { s with
      nullifierHashes := nh :: s.nullifierHashes,
      devices := (⟨m ++ "." ++ s.ensDomain, a, dn⟩,
        ⟨m, m ++ "." ++ s.ensDomain, a, dn, true⟩) :: s.devices,
      deviceHashes := s.deviceHashes ++ [⟨m ++ "." ++ s.ensDomain, a, dn⟩],
      deviceAppIds := (⟨m ++ "." ++ s.ensDomain, a, dn⟩, []) :: s.deviceAppIds } := by
  simp only [udmAddDevice] at h
  split at h
  · exact absurd h (by simp)
  · split at h
    · exact absurd h (by simp)
    · split at h
      · exact absurd h (by simp)
      · simp at h
        exact h.symm

/-- In every reachable registry state, every device's app enumeration list
is empty: `addDevice` installs an empty list and the push in
`addAppToDevice` is dead code. -/
lemma appIds_empty {s : UDMState} (hs : UDMReachable s) :
    ∀ k, findAppIds s k = [] := by
  induction hs with
  | init d u n =>
    intro k
    simp [udmInit, findAppIds, lookupD]
  | step hs hok ih =>
    rename_i s s' c
    intro k
    cases c with
    | addDevice m a dn r nh p =>
      simp only [udmRun] at hok
      rw [udmAddDevice_ok_eq hok]
      show lookupD ((_, ([] : List String)) :: s.deviceAppIds) k [] = []
      rw [lookupD_cons]
      split
      · rfl
      · exact ih k
    | addAppToDevice caller k' a' p =>
      simp only [udmRun] at hok
      rw [udmAddAppToDevice_ok_eq hok]
      exact ih k
    | updateAppPermission caller k' a' p =>
      simp only [udmRun] at hok
      rw [udmUpdateAppPermission_ok_eq hok]
      exact ih k

/-- Reading `deviceApps` through one written entry. -/
lemma findApp_write (s : UDMState) (k' : DeviceHash) (a' : String)
    (v : AppPermission) (k : DeviceHash) (a : String) :
    findApp { s with deviceApps := ((k', a'), v) :: s.deviceApps } k a =
      if (k', a') = (k, a) then v else findApp s k a := by
  by_cases h : (k', a') = (k, a)
  · simp [findApp, lookupD, h]
  · simp [findApp, lookupD, h]

/-- A successful `addAppToDevice` passed the permission guard. -/
lemma udmAddAppToDevice_ok_le {s s' : UDMState} {caller : Nat} {k : DeviceHash}
    {a : String} {p : Nat} (h : udmAddAppToDevice s caller k a p = .ok s') :
    p ≤ 3 := by
  simp only [udmAddAppToDevice] at h
  split at h
  · exact absurd h (by simp)
  · split at h
    · exact absurd h (by simp)
    · omega

/-- A successful `updateAppPermission` passed the permission guard. -/
lemma udmUpdateAppPermission_ok_le {s s' : UDMState} {caller : Nat}
    {k : DeviceHash} {a : String} {p : Nat}
    (h : udmUpdateAppPermission s caller k a p = .ok s') : p ≤ 3 := by
  simp only [udmUpdateAppPermission] at h
  split at h
  · exact absurd h (by simp)
  · split at h
    · exact absurd h (by simp)
    · omega

/-- In every reachable registry state, every stored (or defaulted) app
permission level is at most 3. -/
lemma perm_le_three {s : UDMState} (hs : UDMReachable s) :
    ∀ k a, (findApp s k a).permission ≤ 3 := by
  induction hs with
  | init d u n =>
    intro k a
    simp [udmInit, findApp, lookupD, defaultAppPermission]
  | step hs hok ih =>
    rename_i s s' c
    intro k a
    cases c with
    | addDevice m ad dn r nh p =>
      simp only [udmRun] at hok
      rw [udmAddDevice_ok_eq hok]
      exact ih k a
    | addAppToDevice caller k' a' p =>
      simp only [udmRun] at hok
      have hle := udmAddAppToDevice_ok_le hok
      rw [udmAddAppToDevice_ok_eq hok, findApp_write]
      split
      · simpa using hle
      · exact ih k a
    | updateAppPermission caller k' a' p =>
      simp only [udmRun] at hok
      have hle := udmUpdateAppPermission_ok_le hok
      rw [udmUpdateAppPermission_ok_eq hok, findApp_write]
      split
      · simpa using hle
      · exact ih k a

/-- A successful `addDevice` records its proof nullifier as consumed. -/
lemma udmAddDevice_ok_nullifier_mem {s s' : UDMState} {m : String}
    {a dn r nh : Nat} {p : Bool} (h : udmAddDevice s m a dn r nh p = .ok s') :
    nh ∈ s'.nullifierHashes := by
  rw [udmAddDevice_ok_eq h]
  simp

/-- Successful transactions never un-consume a nullifier. -/
lemma udmRun_ok_nullifier_mono {s s' : UDMState} {c : UDMCall}
    (h : udmRun s c = .ok s') {nh : Nat} (hm : nh ∈ s.nullifierHashes) :
    nh ∈ s'.nullifierHashes := by
  cases c with
  | addDevice m a dn r nh' p =>
    simp only [udmRun] at h
    rw [udmAddDevice_ok_eq h]
    simp [hm]
  | addAppToDevice caller k a p =>
    simp only [udmRun] at h
    rw [udmAddAppToDevice_ok_eq h]
    exact hm
  | updateAppPermission caller k a p =>
    simp only [udmRun] at h
    rw [udmUpdateAppPermission_ok_eq h]
    exact hm

/-- Consumed nullifiers stay consumed along any sequence of successful
transactions. -/
lemma reachFrom_nullifier_mono {s t : UDMState} (h : UDMReachFrom s t)
    {nh : Nat} (hm : nh ∈ s.nullifierHashes) : nh ∈ t.nullifierHashes := by
  induction h with
  | refl => exact hm
  | tail hstep hrel ih =>
    obtain ⟨c, hc⟩ := hrel
    exact udmRun_ok_nullifier_mono hc ih

/-- `addDevice` with an already-consumed proof nullifier reverts with
`DuplicateNullifier` before any other check. -/
lemma udmAddDevice_used_nullifier {s : UDMState} {nh : Nat}
    (h : nh ∈ s.nullifierHashes) (m : String) (a dn r : Nat) (p : Bool) :
    udmAddDevice s m a dn r nh p = .error (.DuplicateNullifier nh) := by
  simp [udmAddDevice, List.elem_iff, h]

/-- `addDevice` for an already-registered device triple with a fresh proof
nullifier and a passing proof reverts with `DeviceAlreadyExists`. -/
lemma udmAddDevice_existing {s : UDMState} {m : String} {a dn : Nat}
    (hdev : (findDevice s ⟨m ++ "." ++ s.ensDomain, a, dn⟩).existsFlag = true)
    {nh : Nat} (hfresh : nh ∉ s.nullifierHashes) (r : Nat) :
    udmAddDevice s m a dn r nh true =
      .error (.DeviceAlreadyExists ⟨m ++ "." ++ s.ensDomain, a, dn⟩) := by
  have hcontains : s.nullifierHashes.contains nh = false := by
    simp [List.elem_iff]
    exact hfresh
  simp only [udmAddDevice, hcontains, Bool.false_eq_true, if_false,
    Bool.not_true]
  split
  · rfl
  · rename_i hcond
    exact absurd hdev hcond

/-- Shape of a successful deployment: the guards that passed, the returned
address, and the resulting state (both mappings written together). -/
lemma deploy_ok_eq {s s' : FactoryState} {caller u : Nat} {d : String}
    {n addr : Nat}
    (h : deployUserDeviceManager s caller u d n = .ok (s', addr)) :
    caller = s.owner ∧ findUserContract s u = 0 ∧ findDomainUser s d = 0 ∧
      addr = freshContractAddress s ∧
      s' = { s with
        userContracts := (u, addr) :: s.userContracts,
        domainToUser := (d, u) :: s.domainToUser,
        allContracts := s.allContracts ++ [addr] } := by
  simp only [deployUserDeviceManager] at h
  split at h
  · exact absurd h (by simp)
  · split at h
    · exact absurd h (by simp)
    · split at h
      · exact absurd h (by simp)
      · simp at h
        refine ⟨by omega, by omega, by omega, h.2.symm, ?_⟩
        rw [← h.1, ← h.2]

/-- Reading an association list through one written entry. -/
lemma lookupZero_cons {κ : Type} [DecidableEq κ] (k' : κ) (v : Nat)
    (l : List (κ × Nat)) (k : κ) :
    lookupZero ((k', v) :: l) k = if k' = k then v else lookupZero l k := by
  by_cases h : k' = k
  · simp [lookupZero, h]
  · simp [lookupZero, h]

/-- A deployment step never changes the factory owner. -/
lemma factoryStep_owner {s s' : FactoryState} (h : FactoryStepRel s s') :
    s'.owner = s.owner := by
  obtain ⟨caller, u, d, n, c, hc⟩ := h
  rw [(deploy_ok_eq hc).2.2.2.2]

/-- A deployment step never overwrites a nonzero `userContracts` entry. -/
lemma factoryStep_userContracts_stable {s s' : FactoryState}
    (h : FactoryStepRel s s') {u : Nat} (hu : findUserContract s u ≠ 0) :
    findUserContract s' u = findUserContract s u := by
  obtain ⟨caller, u', d, n, c, hc⟩ := h
  obtain ⟨-, hu0, -, -, hs'⟩ := deploy_ok_eq hc
  rw [hs']
  show lookupZero ((u', c) :: s.userContracts) u = _
  rw [lookupZero_cons]
  split
  · rename_i he
    rw [he] at hu0
    exact absurd hu0 hu
  · rfl

/-- A deployment step never overwrites a nonzero `domainToUser` entry. -/
lemma factoryStep_domainToUser_stable {s s' : FactoryState}
    (h : FactoryStepRel s s') {d : String} (hd : findDomainUser s d ≠ 0) :
    findDomainUser s' d = findDomainUser s d := by
  obtain ⟨caller, u', d', n, c, hc⟩ := h
  obtain ⟨-, -, hd0, -, hs'⟩ := deploy_ok_eq hc
  rw [hs']
  show lookupZero ((d', u') :: s.domainToUser) d = _
  rw [lookupZero_cons]
  split
  · rename_i he
    rw [he] at hd0
    exact absurd hd0 hd
  · rfl

/-- Owner, nonzero user entries and nonzero domain entries are stable along
any sequence of successful deployments. -/
lemma factoryReachFrom_stable {s t : FactoryState} (h : FactoryReachFrom s t) :
    t.owner = s.owner ∧
      (∀ u, findUserContract s u ≠ 0 →
        findUserContract t u = findUserContract s u) ∧
      (∀ d, findDomainUser s d ≠ 0 →
        findDomainUser t d = findDomainUser s d) := by
  induction h with
  | refl => exact ⟨rfl, fun _ _ => rfl, fun _ _ => rfl⟩
  | tail hsteps hrel ih =>
    obtain ⟨hown, hus, hds⟩ := ih
    refine ⟨by rw [factoryStep_owner hrel, hown], ?_, ?_⟩
    · intro u hu
      have := hus u hu
      rw [factoryStep_userContracts_stable hrel (by rw [this]; exact hu), this]
    · intro d hd
      have := hds d hd
      rw [factoryStep_domainToUser_stable hrel (by rw [this]; exact hd), this]

/-- Invariant of reachable factory states: a domain claimed by a nonzero
user always points through `userContracts` to a nonzero contract. -/
lemma factory_domain_user_contract {s : FactoryState}
    (hs : FactoryReachable s) :
    ∀ d, findDomainUser s d ≠ 0 →
      findUserContract s (findDomainUser s d) ≠ 0 := by
  induction hs with
  | init o =>
    intro d hd
    exact absurd rfl hd
  | step hs hrel ih =>
    rename_i s s'
    intro d hd
    obtain ⟨caller, u', d', n, c, hc⟩ := hrel
    obtain ⟨-, hu0, -, hcfresh, hs'⟩ := deploy_ok_eq hc
    subst hs'
    simp only [findDomainUser, findUserContract, lookupZero_cons] at hd ⊢
    simp only [findDomainUser, findUserContract] at ih
    by_cases hdd : d' = d
    · -- the newly claimed domain: it points to the just-deployed contract
      simp only [hdd, if_pos rfl] at hd ⊢
      simp [hcfresh, freshContractAddress]
    · -- an older domain: its user cannot be the newly written key,
      -- because the new key had a zero entry before
      simp only [hdd, if_false, ite_false] at hd ⊢
      have hold := ih d hd
      split
      · rename_i he
        simp only [findUserContract] at hu0
        rw [he] at hu0
        exact absurd hu0 hold
      · exact hold

/-- A reverted registry transaction leaves storage unchanged. -/
lemma udmTx_of_error {s : UDMState} {c : UDMCall} {e : UDMErr}
    (h : udmRun s c = .error e) : udmTx s c = s := by
  simp [udmTx, h]

/-! ## Claims -/

/-- C1: the spec's end-to-end scenario, replayed against the code.  Every
step behaves as claimed except the app count: after the successful
`addAppToDevice("com.example.app", 2)` the code returns `getDeviceAppCount
= 0`, not 1 (and still 0 after the permission update), because the
enumeration push in `addAppToDevice` tests the `exists` flag it has just
set and therefore never executes.  This theorem evaluates the code at the
claim's exact inputs and exhibits the divergence. -/
theorem scenario_appCount_is_zero_not_one :
    udmRun scenario0 (.addDevice "phone" 209 42 1 100 true) = .ok scenario1 ∧
    udmGetDeviceCount scenario1 = 1 ∧
    (findDevice scenario1 scenarioKey).subdomain = "phone.alice.eth" ∧
    udmAddDevice scenario1 "phone" 209 42 1 101 true =
      .error (.DeviceAlreadyExists scenarioKey) ∧
    udmRun scenario1 (.addAppToDevice 161 scenarioKey "com.example.app" 2) =
      .ok scenario2 ∧
    udmGetDeviceAppCount scenario2 scenarioKey = .ok 0 ∧
    udmGetDeviceAppCount scenario2 scenarioKey ≠ .ok 1 ∧
    udmRun scenario2 (.updateAppPermission 161 scenarioKey "com.example.app" 3) =
      .ok scenario3 ∧
    udmGetAppPermission scenario3 scenarioKey "com.example.app" = .ok ⟨3, true⟩ ∧
    udmGetDeviceAppCount scenario3 scenarioKey = .ok 0 ∧
    udmAddAppToDevice scenario3 161 scenarioKey "com.example.app" 5 =
      .error (.InvalidPermission 5) := by
  decide

/-- C2 counterexample: in the scenario state holding the device but no
apps, `getAppPermission` for a never-created appId returns the defaulted
structure `⟨0, false⟩` instead of failing with `AppNotFound`. -/
theorem getAppPermission_absent_app_returns_default :
    udmGetAppPermission scenario1 scenarioKey "com.example.app" =
      .ok defaultAppPermission ∧
    udmGetAppPermission scenario1 scenarioKey "com.example.app" ≠
      .error (.AppNotFound scenarioKey "com.example.app") := by
  decide

/-- C2 amended: `getDevice`, `getAppPermission`, `getDeviceAppIds` and
`getDeviceAppCount` all fail with `DeviceNotFound` for an unknown device
hash; when the device exists, `getAppPermission` never fails but returns
the stored entry — the defaulted structure (permission 0, `exists` false)
when no entry for that appId was ever created — and the enumeration calls
return the (possibly empty) stored sequence. -/
theorem read_accessors_device_guard (s : UDMState) (k : DeviceHash) (a : String) :
    ((findDevice s k).existsFlag = false →
      udmGetDevice s k = .error (.DeviceNotFound k) ∧
      udmGetAppPermission s k a = .error (.DeviceNotFound k) ∧
      udmGetDeviceAppIds s k = .error (.DeviceNotFound k) ∧
      udmGetDeviceAppCount s k = .error (.DeviceNotFound k)) ∧
    ((findDevice s k).existsFlag = true →
      udmGetAppPermission s k a = .ok (findApp s k a) ∧
      udmGetDeviceAppIds s k = .ok (findAppIds s k) ∧
      udmGetDeviceAppCount s k = .ok (findAppIds s k).length) := by
  constructor <;> intro h <;>
    simp [udmGetDevice, udmGetAppPermission, udmGetDeviceAppIds,
      udmGetDeviceAppCount, h]

/-- Witness for the amended C2 at concrete inputs: an unknown device hash
fails with `DeviceNotFound`, and an existing device with an absent appId
yields the stored (defaulted) entry. -/
theorem read_accessors_device_guard_witness :
    udmGetAppPermission scenario0 scenarioKey "com.example.app" =
      .error (.DeviceNotFound scenarioKey) ∧
    udmGetAppPermission scenario1 scenarioKey "other.app" =
      .ok (findApp scenario1 scenarioKey "other.app") :=
  ⟨((read_accessors_device_guard scenario0 scenarioKey "com.example.app").1
      (by decide)).2.1,
    ((read_accessors_device_guard scenario1 scenarioKey "other.app").2
      (by decide)).1⟩

/-- C3 counterexample: `scenario1` is the state left by the successful call
`addDevice("phone", 0xD1, 42, root 1, proof nullifier 100)`; re-submitting
the addDevice call with inputs identical to that call fails with
`DuplicateNullifier` (the replay check runs first), not with
`DeviceAlreadyExists` as the claim states. -/
theorem addDevice_identical_resubmission_replay_error :
    udmRun scenario0 (.addDevice "phone" 209 42 1 100 true) = .ok scenario1 ∧
    udmAddDevice scenario1 "phone" 209 42 1 100 true =
      .error (.DuplicateNullifier 100) ∧
    udmAddDevice scenario1 "phone" 209 42 1 100 true ≠
      .error (.DeviceAlreadyExists scenarioKey) := by
  decide

/-- C3 amended: the device key is the deterministic function
`(model ++ "." ++ ensDomain, deviceAddress, deviceNullifier)` of the call's
inputs; re-submitting `addDevice` with the same device triple and a fresh
proof nullifier fails with `DeviceAlreadyExists`, while re-submitting with
inputs fully identical to the previously successful call fails with
`DuplicateNullifier`; in both cases the device count is unchanged. -/
theorem identityHash_deterministic_resubmission {s s' : UDMState} {m : String}
    {a dn r nh : Nat} {p : Bool}
    (hok : udmAddDevice s m a dn r nh p = .ok s') :
    findDevice s' ⟨m ++ "." ++ s.ensDomain, a, dn⟩ =
      ⟨m, m ++ "." ++ s.ensDomain, a, dn, true⟩ ∧
    (∀ r' nh' p', nh' ∉ s'.nullifierHashes → p' = true →
      udmAddDevice s' m a dn r' nh' p' =
        .error (.DeviceAlreadyExists ⟨m ++ "." ++ s.ensDomain, a, dn⟩) ∧
      udmGetDeviceCount (udmTx s' (.addDevice m a dn r' nh' p')) =
        udmGetDeviceCount s') ∧
    (udmAddDevice s' m a dn r nh p = .error (.DuplicateNullifier nh) ∧
      udmGetDeviceCount (udmTx s' (.addDevice m a dn r nh p)) =
        udmGetDeviceCount s') := by
  have hnh : nh ∈ s'.nullifierHashes := udmAddDevice_ok_nullifier_mem hok
  have hs' := udmAddDevice_ok_eq hok
  have hdom : s'.ensDomain = s.ensDomain := by rw [hs']
  have hdev : findDevice s' ⟨m ++ "." ++ s.ensDomain, a, dn⟩ =
      ⟨m, m ++ "." ++ s.ensDomain, a, dn, true⟩ := by
    rw [hs']
    show lookupD ((_, _) :: s.devices) _ defaultDevice = _
    rw [lookupD_cons]
    simp
  refine ⟨hdev, ?_, ?_⟩
  · intro r' nh' p' hfresh hp'
    subst hp'
    have hmain := udmAddDevice_existing (s := s')
      (by rw [hdom, hdev]) hfresh r'
    rw [hdom] at hmain
    refine ⟨hmain, ?_⟩
    rw [udmTx_of_error (by simp only [udmRun]; exact hmain)]
  · have hmain := udmAddDevice_used_nullifier hnh m a dn r p
    refine ⟨hmain, ?_⟩
    rw [udmTx_of_error (by simp only [udmRun]; exact hmain)]

/-- Witness for the amended C3 at the scenario's concrete inputs. -/
theorem identityHash_deterministic_resubmission_witness :
    udmAddDevice scenario1 "phone" 209 42 2 101 true =
      .error (.DeviceAlreadyExists ⟨"phone.alice.eth", 209, 42⟩) ∧
    udmAddDevice scenario1 "phone" 209 42 1 100 true =
      .error (.DuplicateNullifier 100) := by
  have h0 : udmAddDevice scenario0 "phone" 209 42 1 100 true = .ok scenario1 := by
    decide
  have h := identityHash_deterministic_resubmission h0
  exact ⟨(h.2.1 2 101 true (by decide) rfl).1, h.2.2.1⟩

/-- C4: in every reachable registry state, every registered device has an
empty app enumeration — `getDeviceAppIds` returns `[]` and
`getDeviceAppCount` returns 0, no matter how many `addAppToDevice` calls
succeeded — because the push in `addAppToDevice` tests
`!deviceApps[deviceHash][appId].exists` immediately after setting the flag
and therefore never executes. -/
theorem deviceAppIds_always_empty {s : UDMState} (hs : UDMReachable s)
    (k : DeviceHash) (hk : (findDevice s k).existsFlag = true) :
    udmGetDeviceAppIds s k = .ok [] ∧ udmGetDeviceAppCount s k = .ok 0 := by
  have he := appIds_empty hs k
  constructor
  · simp [udmGetDeviceAppIds, hk, he]
  · simp [udmGetDeviceAppCount, hk, he]

/-- Witness for C4: the scenario state after a successful `addAppToDevice`
is reachable, its device is registered, and both accessors still report an
empty app list. -/
theorem deviceAppIds_always_empty_witness :
    udmGetDeviceAppIds scenario2 scenarioKey = .ok [] ∧
    udmGetDeviceAppCount scenario2 scenarioKey = .ok 0 := by
  have h0 : UDMReachable scenario0 := UDMReachable.init "alice.eth" 161 7
  have h1 : UDMReachable scenario1 :=
    UDMReachable.step (c := .addDevice "phone" 209 42 1 100 true) h0 (by decide)
  have h2 : UDMReachable scenario2 :=
    UDMReachable.step (c := .addAppToDevice 161 scenarioKey "com.example.app" 2)
      h1 (by decide)
  exact deviceAppIds_always_empty h2 scenarioKey (by decide)

/-- C5: a proof nullifier is accepted at most once per registry: after a
successful `addDevice` consumed nullifier `nh`, every later `addDevice` on
that registry presenting `nh` — whatever its other arguments — reverts
with `DuplicateNullifier nh` (the spec's `ReplayedProof`), and the device
count is unchanged. -/
theorem proof_nullifier_single_use {s s' t : UDMState} {m : String}
    {a dn r nh : Nat} {p : Bool}
    (hok : udmAddDevice s m a dn r nh p = .ok s')
    (ht : UDMReachFrom s' t) :
    ∀ m2 a2 dn2 r2 p2,
      udmAddDevice t m2 a2 dn2 r2 nh p2 = .error (.DuplicateNullifier nh) ∧
      udmGetDeviceCount (udmTx t (.addDevice m2 a2 dn2 r2 nh p2)) =
        udmGetDeviceCount t := by
  intro m2 a2 dn2 r2 p2
  have hmem : nh ∈ t.nullifierHashes :=
    reachFrom_nullifier_mono ht (udmAddDevice_ok_nullifier_mem hok)
  have hmain := udmAddDevice_used_nullifier hmem m2 a2 dn2 r2 p2
  refine ⟨hmain, ?_⟩
  rw [udmTx_of_error (by simp only [udmRun]; exact hmain)]

/-- Witness for C5: replaying nullifier 100 with entirely different device
arguments still fails with `DuplicateNullifier`. -/
theorem proof_nullifier_single_use_witness :
    udmAddDevice scenario1 "tablet" 300 43 9 100 true =
      .error (.DuplicateNullifier 100) ∧
    udmGetDeviceCount (udmTx scenario1 (.addDevice "tablet" 300 43 9 100 true)) =
      udmGetDeviceCount scenario1 := by
  have h0 : udmAddDevice scenario0 "phone" 209 42 1 100 true = .ok scenario1 := by
    decide
  exact proof_nullifier_single_use h0 Relation.ReflTransGen.refl
    "tablet" 300 43 9 true

/-- An `addAppToDevice` call by the owner with a level above 3 reverts with
`InvalidPermission`. -/
lemma udmAddAppToDevice_invalid {s : UDMState} {caller : Nat} {k : DeviceHash}
    {a : String} {p : Nat} (hp : 3 < p) (hc : caller = s.userAddress) :
    udmAddAppToDevice s caller k a p = .error (.InvalidPermission p) := by
  subst hc
  simp [udmAddAppToDevice, hp]

/-- An `updateAppPermission` call by the owner with a level above 3 reverts
with `InvalidPermission`. -/
lemma udmUpdateAppPermission_invalid {s : UDMState} {caller : Nat}
    {k : DeviceHash} {a : String} {p : Nat} (hp : 3 < p)
    (hc : caller = s.userAddress) :
    udmUpdateAppPermission s caller k a p = .error (.InvalidPermission p) := by
  subst hc
  simp [udmUpdateAppPermission, hp]

/-- A non-owner `addAppToDevice` call reverts with `Unauthorized`. -/
lemma udmAddAppToDevice_unauthorized {s : UDMState} {caller : Nat}
    {k : DeviceHash} {a : String} {p : Nat} (hc : caller ≠ s.userAddress) :
    udmAddAppToDevice s caller k a p = .error .Unauthorized := by
  simp [udmAddAppToDevice, hc]

/-- A non-owner `updateAppPermission` call reverts with `Unauthorized`. -/
lemma udmUpdateAppPermission_unauthorized {s : UDMState} {caller : Nat}
    {k : DeviceHash} {a : String} {p : Nat} (hc : caller ≠ s.userAddress) :
    udmUpdateAppPermission s caller k a p = .error .Unauthorized := by
  simp [udmUpdateAppPermission, hc]

/-- C7: in every reachable registry state every stored permission level is
at most 3 (i.e. in {0,1,2,3}); a call to `addAppToDevice` or
`updateAppPermission` with a level of 4 or more by the owner fails with
`InvalidPermission` (a non-owner call fails `Unauthorized` first), and in
all cases the transaction leaves the state unchanged. -/
theorem permission_level_invariant :
    (∀ s : UDMState, UDMReachable s → ∀ k a, (findApp s k a).permission ≤ 3) ∧
    (∀ (s : UDMState) (caller : Nat) (k : DeviceHash) (a : String) (p : Nat),
      4 ≤ p →
      (caller = s.userAddress →
        udmAddAppToDevice s caller k a p = .error (.InvalidPermission p) ∧
        udmUpdateAppPermission s caller k a p = .error (.InvalidPermission p)) ∧
      udmTx s (.addAppToDevice caller k a p) = s ∧
      udmTx s (.updateAppPermission caller k a p) = s) := by
  constructor
  · exact fun s hs => perm_le_three hs
  · intro s caller k a p hp
    have hp' : 3 < p := hp
    by_cases hc : caller = s.userAddress
    · refine ⟨fun _ => ⟨udmAddAppToDevice_invalid hp' hc,
        udmUpdateAppPermission_invalid hp' hc⟩, ?_, ?_⟩
      · rw [udmTx_of_error (by
          simp only [udmRun]; exact udmAddAppToDevice_invalid hp' hc)]
      · rw [udmTx_of_error (by
          simp only [udmRun]; exact udmUpdateAppPermission_invalid hp' hc)]
    · refine ⟨fun hcc => absurd hcc hc, ?_, ?_⟩
      · rw [udmTx_of_error (by
          simp only [udmRun]; exact udmAddAppToDevice_unauthorized hc)]
      · rw [udmTx_of_error (by
          simp only [udmRun]; exact udmUpdateAppPermission_unauthorized hc)]

/-- Witness for C7 at the scenario's concrete inputs: level 5 is rejected
with no state change, and the reachable state `scenario3` stores only
levels at most 3. -/
theorem permission_level_invariant_witness :
    (findApp scenario3 scenarioKey "com.example.app").permission ≤ 3 ∧
    udmAddAppToDevice scenario3 161 scenarioKey "com.example.app" 5 =
      .error (.InvalidPermission 5) ∧
    udmTx scenario3 (.addAppToDevice 161 scenarioKey "com.example.app" 5) =
      scenario3 := by
  have h0 : UDMReachable scenario0 := UDMReachable.init "alice.eth" 161 7
  have h1 : UDMReachable scenario1 :=
    UDMReachable.step (c := .addDevice "phone" 209 42 1 100 true) h0 (by decide)
  have h2 : UDMReachable scenario2 :=
    UDMReachable.step (c := .addAppToDevice 161 scenarioKey "com.example.app" 2)
      h1 (by decide)
  have h3 : UDMReachable scenario3 :=
    UDMReachable.step
      (c := .updateAppPermission 161 scenarioKey "com.example.app" 3)
      h2 (by decide)
  have h := permission_level_invariant
  refine ⟨h.1 scenario3 h3 scenarioKey "com.example.app", ?_, ?_⟩
  · exact ((h.2 scenario3 161 scenarioKey "com.example.app" 5 (by decide)).1
      (by decide)).1
  · exact (h.2 scenario3 161 scenarioKey "com.example.app" 5 (by decide)).2.1

/-- C8: in every reachable registry state the app-id enumeration of every
device contains no duplicates, even after repeated `addAppToDevice` calls
with the same appId (in this code the list is in fact always empty). -/
theorem deviceAppIds_nodup {s : UDMState} (hs : UDMReachable s)
    (k : DeviceHash) :
    (findAppIds s k).Nodup ∧
    ((findDevice s k).existsFlag = true →
      udmGetDeviceAppIds s k = .ok (findAppIds s k)) := by
  have he := appIds_empty hs k
  refine ⟨by rw [he]; exact List.nodup_nil, fun hk => ?_⟩
  simp [udmGetDeviceAppIds, hk]

/-- Witness for C8: after two `addAppToDevice` calls with the same appId,
the enumeration list of the scenario device has no duplicates. -/
theorem deviceAppIds_nodup_witness :
    (findAppIds
      (udmTx scenario2 (.addAppToDevice 161 scenarioKey "com.example.app" 2))
      scenarioKey).Nodup := by
  have h0 : UDMReachable scenario0 := UDMReachable.init "alice.eth" 161 7
  have h1 : UDMReachable scenario1 :=
    UDMReachable.step (c := .addDevice "phone" 209 42 1 100 true) h0 (by decide)
  have h2 : UDMReachable scenario2 :=
    UDMReachable.step (c := .addAppToDevice 161 scenarioKey "com.example.app" 2)
      h1 (by decide)
  have h4 : UDMReachable
      (udmTx scenario2 (.addAppToDevice 161 scenarioKey "com.example.app" 2)) :=
    UDMReachable.step (c := .addAppToDevice 161 scenarioKey "com.example.app" 2)
      h2 (by decide)
  exact (deviceAppIds_nodup h4 scenarioKey).1

/-- C6 counterexample: the factory checks existence with the `address(0)`
sentinel, so deploying for the zero user address records
`domainToUser[domain] = address(0)` and a second deployment for the same
ENS domain (with a different user) succeeds — the domain is registered
twice, falsifying "at most once per ENS domain string" as universally
stated. -/
theorem deploy_same_domain_twice_with_zero_user :
    deployUserDeviceManager (factoryInit 5) 5 0 "alice.eth" 7 =
      .ok (⟨5, [(0, 1)], [("alice.eth", 0)], [1]⟩, 1) ∧
    deployUserDeviceManager ⟨5, [(0, 1)], [("alice.eth", 0)], [1]⟩
        5 22 "alice.eth" 8 =
      .ok (⟨5, [(22, 2), (0, 1)], [("alice.eth", 22), ("alice.eth", 0)],
        [1, 2]⟩, 2) := by
  decide

/-- C6 amended: for deployments with a nonzero user address, the directory
creates at most one registry per user and per ENS domain: creation writes
both mappings together, they are never overwritten by later deployments,
a second attempt by the owner with the same user fails with
`UserAlreadyHasContract` (the spec's `UserAlreadyHasRegistry`), and a
second attempt by the owner with the same domain (and a not-yet-used user
key) fails with `DomainAlreadyRegistered`. -/
theorem directory_create_unique {s s' : FactoryState} {caller u : Nat}
    {d : String} {n addr : Nat} (hu : u ≠ 0)
    (hok : deployUserDeviceManager s caller u d n = .ok (s', addr)) :
    findUserContract s' u = addr ∧ addr ≠ 0 ∧ findDomainUser s' d = u ∧
    ∀ t, FactoryReachFrom s' t →
      findUserContract t u = addr ∧ findDomainUser t d = u ∧
      (∀ caller2 d2 n2, caller2 = t.owner →
        deployUserDeviceManager t caller2 u d2 n2 =
          .error (.UserAlreadyHasContract u)) ∧
      (∀ caller2 u2 n2, caller2 = t.owner → findUserContract t u2 = 0 →
        deployUserDeviceManager t caller2 u2 d n2 =
          .error (.DomainAlreadyRegistered d)) := by
  obtain ⟨hcall, hu0, hd0, haddr, hs'⟩ := deploy_ok_eq hok
  have haddrne : addr ≠ 0 := by
    rw [haddr]
    simp [freshContractAddress]
  have h1 : findUserContract s' u = addr := by
    rw [hs']
    show lookupZero ((u, addr) :: s.userContracts) u = addr
    rw [lookupZero_cons]
    simp
  have h2 : findDomainUser s' d = u := by
    rw [hs']
    show lookupZero ((d, u) :: s.domainToUser) d = u
    rw [lookupZero_cons]
    simp
  refine ⟨h1, haddrne, h2, ?_⟩
  intro t ht
  obtain ⟨hown, hus, hds⟩ := factoryReachFrom_stable ht
  have hut : findUserContract t u = addr := by
    rw [hus u (by rw [h1]; exact haddrne), h1]
  have hdt : findDomainUser t d = u := by
    rw [hds d (by rw [h2]; exact hu), h2]
  refine ⟨hut, hdt, ?_, ?_⟩
  · intro caller2 d2 n2 hc2
    subst hc2
    simp [deployUserDeviceManager, hut, haddrne]
  · intro caller2 u2 n2 hc2 hu2
    subst hc2
    simp [deployUserDeviceManager, hu2, hdt, hu]

/-- Witness for the amended C6: after deploying for user 10 and domain
`"alice.eth"`, a matching-user attempt and a matching-domain attempt both
fail with the corresponding errors. -/
theorem directory_create_unique_witness :
    deployUserDeviceManager (factoryTx (factoryInit 5) 5 10 "alice.eth" 7)
      5 10 "bob.eth" 9 = .error (.UserAlreadyHasContract 10) ∧
    deployUserDeviceManager (factoryTx (factoryInit 5) 5 10 "alice.eth" 7)
      5 11 "alice.eth" 9 = .error (.DomainAlreadyRegistered "alice.eth") := by
  have hok : deployUserDeviceManager (factoryInit 5) 5 10 "alice.eth" 7 =
      .ok (factoryTx (factoryInit 5) 5 10 "alice.eth" 7, 1) := by
    decide
  have h := directory_create_unique (by decide) hok
  have ht := h.2.2.2 _ Relation.ReflTransGen.refl
  exact ⟨ht.2.2.1 5 "bob.eth" 9 (by decide),
    ht.2.2.2 5 11 9 (by decide) (by decide)⟩

/-- C9: in every reachable factory state, `getUserContract`,
`getUserByDomain` and `getContractByDomain` fail with the factory's
not-found error (`ContractNotFound`) when the queried key is absent, and
none of them ever returns the zero sentinel to the caller. -/
theorem directory_lookups_not_found {s : FactoryState}
    (hs : FactoryReachable s) (u : Nat) (d : String) :
    (findUserContract s u = 0 →
      getUserContract s u = .error (.ContractNotFound u)) ∧
    getUserContract s u ≠ .ok 0 ∧
    (findDomainUser s d = 0 →
      getUserByDomain s d = .error (.ContractNotFound 0) ∧
      getContractByDomain s d = .error (.ContractNotFound 0)) ∧
    getUserByDomain s d ≠ .ok 0 ∧
    getContractByDomain s d ≠ .ok 0 := by
  refine ⟨?_, ?_, ?_, ?_, ?_⟩
  · intro h
    simp [getUserContract, h]
  · by_cases h : findUserContract s u = 0
    · simp [getUserContract, h]
    · simp [getUserContract, h]
  · intro h
    constructor
    · simp [getUserByDomain, h]
    · simp [getContractByDomain, h]
  · by_cases h : findDomainUser s d = 0
    · simp [getUserByDomain, h]
    · simp [getUserByDomain, h]
  · by_cases h : findDomainUser s d = 0
    · simp [getContractByDomain, h]
    · have hc := factory_domain_user_contract hs d h
      simp [getContractByDomain, h, hc]

/-- Witness for C9 on the freshly constructed factory: both absent-key
lookups surface `ContractNotFound`. -/
theorem directory_lookups_not_found_witness :
    getUserContract (factoryInit 5) 3 = .error (.ContractNotFound 3) ∧
    getUserByDomain (factoryInit 5) "x.eth" = .error (.ContractNotFound 0) := by
  have h := directory_lookups_not_found (FactoryReachable.init 5) 3 "x.eth"
  exact ⟨h.1 (by decide), (h.2.2.1 (by decide)).1⟩

/-- C10: every mutating operation is atomic — whenever a registry call or
a factory deployment fails with any error, the transaction leaves the
entire state unchanged; in particular a failed `addDevice` consumes no
nullifier and inserts no device. -/
theorem failed_calls_leave_state_unchanged :
    (∀ (s : UDMState) (c : UDMCall) (e : UDMErr),
      udmRun s c = .error e → udmTx s c = s) ∧
    (∀ (s : UDMState) (m : String) (a dn r nh : Nat) (p : Bool) (e : UDMErr),
      udmAddDevice s m a dn r nh p = .error e →
      (udmTx s (.addDevice m a dn r nh p)).nullifierHashes =
        s.nullifierHashes ∧
      (udmTx s (.addDevice m a dn r nh p)).devices = s.devices ∧
      (udmTx s (.addDevice m a dn r nh p)).deviceHashes = s.deviceHashes) ∧
    (∀ (s : FactoryState) (caller u : Nat) (d : String) (n : Nat)
      (e : FactoryErr),
      deployUserDeviceManager s caller u d n = .error e →
      factoryTx s caller u d n = s) := by
  refine ⟨fun s c e h => udmTx_of_error h, ?_, ?_⟩
  · intro s m a dn r nh p e h
    rw [udmTx_of_error (by simp only [udmRun]; exact h)]
    exact ⟨rfl, rfl, rfl⟩
  · intro s caller u d n e h
    simp [factoryTx, h]

/-- Witness for C10 at concrete failing inputs: a replayed `addDevice` and
an unauthorized deployment both leave the state exactly as it was. -/
theorem failed_calls_leave_state_unchanged_witness :
    udmTx scenario1 (.addDevice "phone" 209 42 1 100 true) = scenario1 ∧
    factoryTx (factoryInit 5) 6 7 "alice.eth" 8 = factoryInit 5 := by
  have h := failed_calls_leave_state_unchanged
  exact ⟨h.1 scenario1 (.addDevice "phone" 209 42 1 100 true)
      (.DuplicateNullifier 100) (by decide),
    h.2.2 (factoryInit 5) 6 7 "alice.eth" 8 .Unauthorized (by decide)⟩

end Blocktrain
